import Mathlib

/-!
Verification of the `gym_vertical_landing` environment
(`gym_vertical_landing/envs/vertical_landing_env.py`) against its
natural-language specification.

The physics engine (Box2D) is out of scope of the spec and is treated as a
black box: each simulated tick consumes an oracle input consisting of the
list of contact events fired during `world.Step` and a `PhysReading` with
the post-step pose/velocity data read back from the lander body.  All
numeric state is modelled over `ℚ`; the quantities the source computes with
`np.linalg.norm` (Euclidean norms, hence possibly irrational) and the
π-wrapped angle are carried as oracle fields of the reading.
-/

namespace VerticalLanding

/-- The bodies of one scene, as created in `reset` (lines 289-386): the water
terrain, the ship platform, the two containers, the lander and its two legs. -/
inductive BodyId
  | water
  | ship
  | container0
  | container1
  | lander
  | leg0
  | leg1
deriving DecidableEq, Fintype

/-- A contact callback fired by the physics engine during `world.Step`:
`ContactDetector.BeginContact` / `ContactDetector.EndContact` receive the two
bodies owning the touching fixtures (lines 55-69). -/
inductive ContactEvent
  | beginEvent (a b : BodyId)
  | endEvent (a b : BodyId)
deriving DecidableEq, Fintype

/-- The contact-listener-owned state: `self.game_over` and the two
`legs[i].ground_contact` flags. -/
structure ContactFlags where
  gameOver : Bool
  leg0 : Bool
  leg1 : Bool
deriving DecidableEq

/-- Lines 56-59: a contact is fatal when the water body, the lander body or
either container body owns one of the two fixtures. -/
def catastrophicBody (b : BodyId) : Bool :=
  b == BodyId.water || b == BodyId.lander || b == BodyId.container0 || b == BodyId.container1

/-- `ContactDetector.BeginContact` (lines 55-64) and `EndContact` (lines 66-69).
On begin: if a catastrophic body is involved, set `game_over`; otherwise set the
ground-contact flag of each involved leg.  On end: clear the ground-contact flag
of each involved leg.  The `for i in range(2)` loop touches each leg's flag
independently. -/
def applyContactEvent (c : ContactFlags) : ContactEvent → ContactFlags
  | .beginEvent a b =>
      if catastrophicBody a || catastrophicBody b then
        { c with gameOver := true }
      else
        { gameOver := c.gameOver
          leg0 := if a == BodyId.leg0 || b == BodyId.leg0 then true else c.leg0
          leg1 := if a == BodyId.leg1 || b == BodyId.leg1 then true else c.leg1 }
  | .endEvent a b =>
      { gameOver := c.gameOver
        leg0 := if a == BodyId.leg0 || b == BodyId.leg0 then false else c.leg0
        leg1 := if a == BodyId.leg1 || b == BodyId.leg1 then false else c.leg1 }

/-- The callbacks fired during one `world.Step` call, in order. -/
def runContacts (c : ContactFlags) (evs : List ContactEvent) : ContactFlags :=
  evs.foldl applyContactEvent c

lemma applyContactEvent_gameOver_mono (c : ContactFlags) (e : ContactEvent)
    (h : c.gameOver = true) : (applyContactEvent c e).gameOver = true := by
  cases e with
  | beginEvent a b =>
      simp only [applyContactEvent]
      split
      · rfl
      · exact h
  | endEvent a b => exact h

lemma runContacts_gameOver_mono (evs : List ContactEvent) (c : ContactFlags)
    (h : c.gameOver = true) : (runContacts c evs).gameOver = true := by
  induction evs generalizing c with
  | nil => exact h
  | cons e tl ih => exact ih (applyContactEvent c e) (applyContactEvent_gameOver_mono c e h)

set_option synthInstance.maxSize 2000 in
/-- Claim C5: on contact-begin, involvement of the Water, Lander or either
Container body sets the catastrophic flag; otherwise an involved leg's
ground-contact flag is set.  On contact-end an involved leg's flag is cleared
and the catastrophic flag is untouched.  Each leg's flag is updated
independently of the other leg's (an event not involving a leg leaves the
flag of that leg unchanged). -/
theorem contact_event_handling :
    ∀ (g l0 l1 : Bool) (a b : BodyId),
      ((catastrophicBody a || catastrophicBody b) = true →
        (applyContactEvent ⟨g, l0, l1⟩ (.beginEvent a b)).gameOver = true) ∧
      ((catastrophicBody a || catastrophicBody b) = false →
        ((a = BodyId.leg0 ∨ b = BodyId.leg0) →
          (applyContactEvent ⟨g, l0, l1⟩ (.beginEvent a b)).leg0 = true) ∧
        ((a = BodyId.leg1 ∨ b = BodyId.leg1) →
          (applyContactEvent ⟨g, l0, l1⟩ (.beginEvent a b)).leg1 = true) ∧
        (a ≠ BodyId.leg0 → b ≠ BodyId.leg0 →
          (applyContactEvent ⟨g, l0, l1⟩ (.beginEvent a b)).leg0 = l0) ∧
        (a ≠ BodyId.leg1 → b ≠ BodyId.leg1 →
          (applyContactEvent ⟨g, l0, l1⟩ (.beginEvent a b)).leg1 = l1) ∧
        (applyContactEvent ⟨g, l0, l1⟩ (.beginEvent a b)).gameOver = g) ∧
      (((a = BodyId.leg0 ∨ b = BodyId.leg0) →
          (applyContactEvent ⟨g, l0, l1⟩ (.endEvent a b)).leg0 = false) ∧
        ((a = BodyId.leg1 ∨ b = BodyId.leg1) →
          (applyContactEvent ⟨g, l0, l1⟩ (.endEvent a b)).leg1 = false) ∧
        (a ≠ BodyId.leg0 → b ≠ BodyId.leg0 →
          (applyContactEvent ⟨g, l0, l1⟩ (.endEvent a b)).leg0 = l0) ∧
        (a ≠ BodyId.leg1 → b ≠ BodyId.leg1 →
          (applyContactEvent ⟨g, l0, l1⟩ (.endEvent a b)).leg1 = l1) ∧
        (applyContactEvent ⟨g, l0, l1⟩ (.endEvent a b)).gameOver = g) := by
  decide

/-- Witness for C5 at concrete events: a water-leg contact-begin sets the
catastrophic flag, and a ship-leg contact-end clears that leg's flag. -/
theorem contact_event_handling_witness :
    (catastrophicBody BodyId.water || catastrophicBody BodyId.leg0) = true ∧
    (applyContactEvent ⟨false, false, false⟩
        (.beginEvent BodyId.water BodyId.leg0)).gameOver = true ∧
    (applyContactEvent ⟨true, true, true⟩
        (.endEvent BodyId.ship BodyId.leg0)).leg0 = false :=
  ⟨by decide,
    (contact_event_handling false false false BodyId.water BodyId.leg0).1 (by decide),
    (contact_event_handling true true true BodyId.ship BodyId.leg0).2.2.1 (Or.inr rfl)⟩

/-- Counterexample to claim C7 as stated: a contact-begin in which the Ship
(platform) body is involved does NOT set the catastrophic flag when the other
body is a leg; it sets the leg's ground-contact flag instead.  (Legs landing
on the ship is the success condition, so ship contacts are not in the fatal
set of lines 56-59.) -/
theorem ship_contact_counterexample :
    (applyContactEvent ⟨false, false, false⟩
        (.beginEvent BodyId.ship BodyId.leg0)).gameOver = false ∧
    (applyContactEvent ⟨false, false, false⟩
        (.beginEvent BodyId.ship BodyId.leg0)).leg0 = true := by
  decide

/-- Claim C7 amended: a contact-begin involving the Ship body sets the
catastrophic flag only when the other involved body is itself Water, Lander
or a Container; a Ship-Leg contact-begin leaves the catastrophic flag
unchanged and sets that leg's ground-contact flag. -/
theorem ship_contact_amended :
    ∀ (g l0 l1 : Bool) (b : BodyId),
      (applyContactEvent ⟨g, l0, l1⟩ (.beginEvent BodyId.ship b)).gameOver
          = (g || catastrophicBody b) ∧
      (applyContactEvent ⟨g, l0, l1⟩ (.beginEvent b BodyId.ship)).gameOver
          = (g || catastrophicBody b) ∧
      (applyContactEvent ⟨g, l0, l1⟩ (.beginEvent BodyId.ship BodyId.leg0)).leg0 = true ∧
      (applyContactEvent ⟨g, l0, l1⟩ (.beginEvent BodyId.ship BodyId.leg1)).leg1 = true := by
  decide

/-! ### Environment constants (lines 46 and 77-110) -/

/-- Line 46: `FPS = 60`. -/
def FPS : ℕ := 60

/-- Line 80: temporal scaling. -/
def scale_s : ℚ := 35/100

/-- Line 81. -/
def start_height : ℚ := 1000

/-- Line 82. -/
def start_speed : ℚ := 80

/-- Line 79. -/
def initial_random : ℚ := 4/10

/-- Line 85. -/
def gimbal_threshold : ℚ := 4/10

/-- Line 87. -/
def min_throttle : ℚ := 4/10

/-- Line 88: `3.66 * scale_s`. -/
def rocket_width : ℚ := 366/100 * scale_s

/-- Line 100: ship height equals the rocket width. -/
def ship_height : ℚ := rocket_width

/-- Line 105: world height `1.1 * start_height * scale_s`. -/
def H : ℚ := 11/10 * start_height * scale_s

/-- Line 106: world width `viewport_w / viewport_h * H` with viewport 500x720. -/
def W : ℚ := 500/720 * H

/-- Line 282: `terranheight = H / 20`. -/
def terranheight : ℚ := H / 20

/-- Line 283: `shipheight = terranheight + ship_height`. -/
def shipheight : ℚ := terranheight + ship_height

/-- Line 109: per-feature means used by the observation rescale of line 504. -/
def obsMean : List ℚ :=
  [-34/1000, -15/100, -16/1000, 24/10000, 24/10000, 137/1000, -2/100, -1/100, -8/10, 2/1000]

/-- Line 110 (radicands): the code divides each centred feature by
`np.sqrt` of these constants; the square roots are irrational, so the final
rescale is a fixed per-feature affine bijection not applied in this model. -/
def obsVarTable : List ℚ :=
  [8/100, 33/100, 73/10000, 23/10000, 23/10000, 8/10, 85/1000, 88/10000, 63/1000, 76/1000]

/-! ### Control mapping (lines 400-426) -/

/-- `np.clip(x, lo, hi)`. -/
def clip (x lo hi : ℚ) : ℚ := if x < lo then lo else if x > hi then hi else x

/-- Raw action in either mode (`self.continuous` selects the branch of `step`). -/
inductive Action
  | continuous (a0 a1 a2 : ℚ)
  | discrete (n : ℤ)
deriving DecidableEq

/-- Continuous branch, lines 402-409.  Line 403 evaluates `np.clip(action, -1, 1)`
but discards the returned array, so the raw (unclamped) components feed the
gimbal/throttle increments and the thruster threshold below. -/
def continuousControl (gimbal throttle : ℚ) (a0 a1 a2 : ℚ) : ℚ × ℚ × ℤ :=
  (gimbal + a0 * (15/100) / 60,
   throttle + a1 * (5/10) / 60,
   if a2 > 1/2 then 1 else if a2 < -(1/2) then -1 else 0)

/-- Modelled from the spec (section 4.3 and claim C3): the same mapping but with
each continuous component first clamped to `[-1, 1]`, as the spec requires. -/
def continuousControlSpec (gimbal throttle : ℚ) (a0 a1 a2 : ℚ) : ℚ × ℚ × ℤ :=
  (gimbal + clip a0 (-1) 1 * (15/100) / 60,
   throttle + clip a1 (-1) 1 * (5/10) / 60,
   if clip a2 (-1) 1 > 1/2 then 1 else if clip a2 (-1) 1 < -(1/2) then -1 else 0)

/-- Discrete branch, lines 410-422: actions 0-5 adjust gimbal/throttle/thruster;
any other integer falls through every `elif` and changes nothing. -/
def discreteControl (gimbal throttle : ℚ) (n : ℤ) : ℚ × ℚ × ℤ :=
  if n = 0 then (gimbal + 1/100, throttle, 0)
  else if n = 1 then (gimbal - 1/100, throttle, 0)
  else if n = 2 then (gimbal, throttle + 1/100, 0)
  else if n = 3 then (gimbal, throttle - 1/100, 0)
  else if n = 4 then (gimbal, throttle, -1)
  else if n = 5 then (gimbal, throttle, 1)
  else (gimbal, throttle, 0)

/-- Lines 400-422: dispatch on the action mode; returns the pre-clamp gimbal,
pre-clamp throttle and the lateral force direction of this tick. -/
def applyAction (gimbal throttle : ℚ) : Action → ℚ × ℚ × ℤ
  | .continuous a0 a1 a2 => continuousControl gimbal throttle a0 a1 a2
  | .discrete n => discreteControl gimbal throttle n

/-- Line 426: engine power derived from the clamped throttle (feeds only the
physics forces, which are behind the oracle boundary). -/
def enginePower (throttle : ℚ) : ℚ :=
  if throttle = 0 then 0 else min_throttle + throttle * (1 - min_throttle)

/-- Claim C3 refuted (code bug): with gimbal 0 and throttle 0, the continuous
action `(2, 0, 0)` adds `2 * 0.15/60 = 1/200` to the gimbal, while the claimed
clamped behaviour would add `clip 2 [-1,1] * 0.15/60 = 1/400`: the result of
`np.clip` on line 403 is discarded, so out-of-range components are not clamped. -/
theorem continuous_clip_discarded :
    (continuousControl 0 0 2 0 0).1 = 1/200 ∧
    (continuousControlSpec 0 0 2 0 0).1 = 1/400 ∧
    continuousControl 0 0 2 0 0 ≠ continuousControlSpec 0 0 2 0 0 := by
  refine ⟨by norm_num [continuousControl], by norm_num [continuousControlSpec, clip], ?_⟩
  intro h
  have h1 := congrArg Prod.fst h
  norm_num [continuousControl, continuousControlSpec, clip] at h1

/-- Counterexample to claim C8 as stated: the discrete action 7 (outside
`[0, 6]`) is not rejected; it falls through every branch and behaves exactly
like the no-op action 6 (gimbal and throttle unchanged, no lateral thrust). -/
theorem discrete_out_of_range_counterexample :
    discreteControl 3 2 7 = (3, 2, 0) ∧
    discreteControl 3 2 7 = discreteControl 3 2 6 := by
  constructor <;> rfl

/-- Claim C8 amended: out-of-range discrete actions are silent no-ops — for
every integer `n` outside `[0, 6]` the mapping returns the gimbal and throttle
unchanged and lateral thrust 0, identical to the no-op action 6; no error is
raised (the code's `if/elif` chain has no `else`). -/
theorem discrete_out_of_range_noop (gimbal throttle : ℚ) (n : ℤ)
    (h : n < 0 ∨ 6 < n) :
    discreteControl gimbal throttle n = (gimbal, throttle, 0) ∧
    discreteControl gimbal throttle n = discreteControl gimbal throttle 6 := by
  have h6 : discreteControl gimbal throttle 6 = (gimbal, throttle, 0) := rfl
  rw [h6]
  have : discreteControl gimbal throttle n = (gimbal, throttle, 0) := by
    unfold discreteControl
    rcases h with h | h <;> split_ifs <;> first | rfl | omega
  exact ⟨this, this⟩

/-- Witness for the amended C8 at the concrete out-of-range action 7. -/
theorem discrete_out_of_range_noop_witness :
    ((7 : ℤ) < 0 ∨ 6 < (7 : ℤ)) ∧ discreteControl 3 2 7 = (3, 2, 0) :=
  ⟨Or.inr (by norm_num), (discrete_out_of_range_noop 3 2 7 (Or.inr (by norm_num))).1⟩

/-! ### Randomness used by `reset` (lines 325, 388-392)

The environment owns a seeded random source `self.np_random` created by
`_seed` (lines 155-157).  `reset` nevertheless draws two of its three random
quantities from the process-global `np.random` stream, which the seed does
not control.  Each draw is modelled as an oracle input, tagged by which
stream the source takes it from. -/

/-- The three random draws consumed by one `reset` call. -/
structure ResetDraws where
  /-- Line 325: `np.random.uniform(-0.3, 0.3)` — GLOBAL stream, not seeded. -/
  gX : ℚ
  /-- Line 389: `self.np_random.uniform(0, initial_random)` — seeded stream. -/
  uV : ℚ
  /-- Line 392: `np.random.uniform(-1, 1)` — GLOBAL stream, not seeded. -/
  gA : ℚ
deriving DecidableEq

/-- Line 325: `initial_x = W/2 + W * np.random.uniform(-0.3, 0.3)`. -/
def initial_x (d : ResetDraws) : ℚ := W / 2 + W * d.gX

/-- Lines 388-390: initial linear velocity
`(-np_random.uniform(0, initial_random) * start_speed * (initial_x - W/2) / W, -start_speed)`. -/
def initialVelocity (d : ResetDraws) : ℚ × ℚ :=
  (-(d.uV * start_speed * (initial_x d - W / 2) / W), -start_speed)

/-- Line 392: `angularVelocity = (1 + initial_random) * np.random.uniform(-1, 1)`. -/
def initialAngularVelocity (d : ResetDraws) : ℚ := (1 + initial_random) * d.gA

/-- The randomized initial conditions produced by one `reset` call. -/
def resetInitialConditions (d : ResetDraws) : ℚ × (ℚ × ℚ) × ℚ :=
  (initial_x d, initialVelocity d, initialAngularVelocity d)

/-- Claim C2 refuted (code bug): two `reset` calls whose SEEDED stream yields
the identical draw (`uV = 1/5` both times) but whose process-global `np.random`
stream is in different states produce different initial x positions and
different initial angular velocities — so the episode start, hence the
observation sequence, is not determined by the seed.  Lines 325 and 392 draw
from `np.random` instead of the seeded `self.np_random` used on line 389. -/
theorem reset_not_seed_determined :
    initial_x ⟨1/10, 1/5, 1/10⟩ ≠ initial_x ⟨1/5, 1/5, 1/5⟩ ∧
    initialAngularVelocity ⟨1/10, 1/5, 1/10⟩ ≠ initialAngularVelocity ⟨1/5, 1/5, 1/5⟩ ∧
    resetInitialConditions ⟨1/10, 1/5, 1/10⟩ ≠ resetInitialConditions ⟨1/5, 1/5, 1/5⟩ := by
  refine ⟨?_, ?_, ?_⟩
  · intro h
    norm_num [initial_x, W, H, start_height, scale_s] at h
  · intro h
    norm_num [initialAngularVelocity, initial_random] at h
  · intro h
    have h1 := congrArg Prod.fst h
    norm_num [resetInitialConditions, initial_x, W, H, start_height, scale_s] at h1

/-! ### The per-tick state and the `step` function (lines 400-505) -/

/-- The mutable per-episode state of the environment object that `step`
reads and writes: the contact-listener flags, `self.landed_ticks`,
`self.prev_shaping`, `self.stepnumber`, `self.gimbal` and `self.throttle`. -/
structure EnvState where
  contacts : ContactFlags
  landedTicks : ℕ
  prevShaping : Option ℚ
  stepnumber : ℕ
  gimbal : ℚ
  throttle : ℚ
deriving DecidableEq

/-- The data `step` reads back from the physics engine after `world.Step`
(lines 441-471).  `speed` stands for `np.linalg.norm(vel / start_speed)` and
`distance` for `np.linalg.norm((3 * x_distance, y_distance))`: both are
Euclidean norms, hence possibly irrational, and are carried as oracle fields
(they are nonnegative in any real reading).  `wrappedAngle` is
`(angle / pi) % 2` wrapped into `(-1, 1]` (line 447-450), again an oracle
field because of pi.  `j0`/`j1` are `legs[i].joint.angle`. -/
structure PhysReading where
  posX : ℚ
  posY : ℚ
  velX : ℚ
  velY : ℚ
  velA : ℚ
  wrappedAngle : ℚ
  speed : ℚ
  distance : ℚ
  j0 : ℚ
  j1 : ℚ
deriving DecidableEq

/-- Line 445: `x_distance = (pos.x - W/2) / W`. -/
def xDistance (ph : PhysReading) : ℚ := (ph.posX - W / 2) / W

/-- Line 446: `y_distance = (pos.y - shipheight) / (H - shipheight)`. -/
def yDistance (ph : PhysReading) : ℚ := (ph.posY - shipheight) / (H - shipheight)

/-- Line 469: `outside = abs(pos.x - W/2) > W/2 or pos.y > H`. -/
def outsideCond (ph : PhysReading) : Bool :=
  decide (|ph.posX - W / 2| > W / 2) || decide (ph.posY > H)

/-- Line 467: `groundcontact = legs[0].ground_contact or legs[1].ground_contact`. -/
def groundContactCond (c : ContactFlags) : Bool := c.leg0 || c.leg1

/-- Line 468: `brokenleg = (legs[0].joint.angle < 0 or legs[1].joint.angle > -0)
and groundcontact`. -/
def brokenLegCond (ph : PhysReading) (c : ContactFlags) : Bool :=
  (decide (ph.j0 < 0) || decide (ph.j1 > 0)) && groundContactCond c

/-- Line 471: `landed = legs[0].ground_contact and legs[1].ground_contact and
speed < 0.1`. -/
def landedCond (ph : PhysReading) (c : ContactFlags) : Bool :=
  c.leg0 && c.leg1 && decide (ph.speed < 1/10)

/-- Lines 475-478: `game_over` after this tick — the stored flag, possibly set
by the contact callbacks, or the `outside` / `brokenleg` conditions. -/
def gameOverNext (ph : PhysReading) (c : ContactFlags) : Bool :=
  c.gameOver || outsideCond ph || brokenLegCond ph c

/-- Lines 487-490: the landed-tick counter is only updated in the
non-terminal branch; it increments on a landed tick and resets to 0 otherwise. -/
def landedTicksNext (lt : ℕ) (ph : PhysReading) (c : ContactFlags) : ℕ :=
  if gameOverNext ph c then lt else if landedCond ph c then lt + 1 else 0

/-- Lines 482-483: `shaping = -0.5 * (distance + speed + abs(angle) ** 2)
+ 0.1 * (leg0.ground_contact + leg1.ground_contact)`. -/
def shapingValue (ph : PhysReading) (c : ContactFlags) : ℚ :=
  -(1/2) * (ph.distance + ph.speed + |ph.wrappedAngle| ^ 2)
    + (1/10) * ((if c.leg0 then (1 : ℚ) else 0) + (if c.leg1 then (1 : ℚ) else 0))

/-- Lines 484-485: the shaping delta contributes only when a previous shaping
value exists. -/
def shapingDelta : Option ℚ → ℚ → ℚ
  | some p, sh => sh - p
  | none, _ => 0

/-- Line 496: the terminal-tick adjustment
`max(-1, 0 - 2 * (speed + distance + abs(angle) + abs(vel_a)))`. -/
def terminalAdjust (ph : PhysReading) : ℚ :=
  max (-1) (0 - 2 * (ph.speed + ph.distance + |ph.wrappedAngle| + |ph.velA|))

/-- Line 470: `fuelcost = 0.1 * (0 * power + abs(force_dir)) / FPS`. -/
def fuelCost (fd : ℤ) : ℚ := 1/10 * ((|fd| : ℤ) : ℚ) / 60

/-- One environment tick, `VerticalLandingEnv.step` (lines 400-505): control
mapping, gimbal/throttle clamps, one physics step (the oracle supplies the
contact events fired during `world.Step` and the post-step reading), then the
reward/termination state machine of lines 463-501.  The returned observation
is the raw feature list of lines 452-461; the code's final line 504 additionally
applies the fixed per-feature affine rescale `(x - obsMean i) / sqrt (obsVarTable i)`,
a bijection per feature, omitted here because its divisors are irrational. -/
def step (s : EnvState) (a : Action) (evs : List ContactEvent) (ph : PhysReading) :
    EnvState × List ℚ × ℚ × Bool :=
  let m := applyAction s.gimbal s.throttle a
  let gimbal := clip m.1 (-gimbal_threshold) gimbal_threshold
  let throttle := clip m.2.1 0 1
  let c := runContacts s.contacts evs
  let go := gameOverNext ph c
  let lt := landedTicksNext s.landedTicks ph c
  let done := go || decide (lt = FPS)
  let rewardA :=
    if go then -fuelCost m.2.2
    else if lt = FPS then 1
    else -fuelCost m.2.2 + shapingDelta s.prevShaping (shapingValue ph c)
  let rewardB :=
    if done then rewardA + terminalAdjust ph
    else if groundContactCond c then rewardA
    else rewardA - (25/100) / 60
  (⟨⟨go, c.leg0, c.leg1⟩, lt, if go then s.prevShaping else some (shapingValue ph c),
      s.stepnumber + 1, gimbal, throttle⟩,
   [2 * xDistance ph, 2 * (yDistance ph - 1/2), ph.wrappedAngle,
      if c.leg0 then 1 else 0, if c.leg1 then 1 else 0,
      2 * (throttle - 1/2), gimbal / gimbal_threshold,
      ph.velX / start_speed, ph.velY / start_speed, ph.velA],
   clip rewardB (-1) 1,
   done)

/-- Projection: the post-tick environment state. -/
def stepState (s : EnvState) (a : Action) (evs : List ContactEvent) (ph : PhysReading) :
    EnvState := (step s a evs ph).1

/-- Projection: the observation returned by the tick. -/
def stepObs (s : EnvState) (a : Action) (evs : List ContactEvent) (ph : PhysReading) :
    List ℚ := (step s a evs ph).2.1

/-- Projection: the reward returned by the tick. -/
def stepReward (s : EnvState) (a : Action) (evs : List ContactEvent) (ph : PhysReading) :
    ℚ := (step s a evs ph).2.2.1

/-- Projection: the `done` flag returned by the tick. -/
def stepDone (s : EnvState) (a : Action) (evs : List ContactEvent) (ph : PhysReading) :
    Bool := (step s a evs ph).2.2.2

/-- The episode state freshly zeroed by `reset` (lines 275-281) before the
scene is rebuilt: flags cleared, counters zeroed, no previous shaping. -/
def initialEnvState : EnvState := ⟨⟨false, false, false⟩, 0, none, 0, 0, 0⟩

/-- Lines 395-398: the action `reset` feeds to its internal `step` call —
`[0, 0, 0]` in continuous mode, `6` in discrete mode. -/
def resetAction (cont : Bool) : Action :=
  if cont then Action.continuous 0 0 0 else Action.discrete 6

/-- `VerticalLandingEnv.reset` (lines 271-398): destroys the scene, zeroes the
episode state, rebuilds the scene, then returns `self.step(no-op)[0]` — the
observation of one internally executed tick.  The model returns that
observation together with the environment state the internal tick leaves
behind. -/
def reset (cont : Bool) (evs : List ContactEvent) (ph : PhysReading) :
    List ℚ × EnvState :=
  (stepObs initialEnvState (resetAction cont) evs ph,
   stepState initialEnvState (resetAction cont) evs ph)

/-- Run a list of ticks (action, contact events, post-step reading per tick),
collecting the (reward, done) outputs. -/
def runEpisode (s : EnvState) : List (Action × List ContactEvent × PhysReading) → List (ℚ × Bool)
  | [] => []
  | (a, evs, ph) :: rest =>
      (stepReward s a evs ph, stepDone s a evs ph) :: runEpisode (stepState s a evs ph) rest

lemma clip_bounds (x lo hi : ℚ) (h : lo ≤ hi) : lo ≤ clip x lo hi ∧ clip x lo hi ≤ hi := by
  unfold clip
  split_ifs <;> constructor <;> linarith

lemma clip_nonpos {x : ℚ} (h : x ≤ 0) : clip x (-1) 1 ≤ 0 := by
  unfold clip
  split_ifs <;> linarith

lemma fuelCost_nonneg (fd : ℤ) : 0 ≤ fuelCost fd := by
  unfold fuelCost
  have h : (0 : ℚ) ≤ ((|fd| : ℤ) : ℚ) := by exact_mod_cast abs_nonneg fd
  positivity

lemma terminalAdjust_nonpos (ph : PhysReading) (hs : 0 ≤ ph.speed) (hd : 0 ≤ ph.distance) :
    terminalAdjust ph ≤ 0 := by
  unfold terminalAdjust
  apply max_le (by norm_num)
  have h1 := abs_nonneg ph.wrappedAngle
  have h2 := abs_nonneg ph.velA
  linarith

/-- Claim C9: every tick's reward lies in `[-1, 1]` — line 500 clamps the
reward with `np.clip(reward, -1, 1)` after all branches. -/
theorem reward_bounded (s : EnvState) (a : Action) (evs : List ContactEvent)
    (ph : PhysReading) :
    -1 ≤ stepReward s a evs ph ∧ stepReward s a evs ph ≤ 1 :=
  clip_bounds _ _ _ (by norm_num)

/-- Claim C4: on a tick where `outside` or `brokenleg` holds, `step` returns
`done = true` and the landed-tick-counting / shaping branch is skipped (the
counter and the stored shaping value are left untouched), even if `landed`
also holds on that tick (no assumption excludes it). -/
theorem catastrophe_precedence (s : EnvState) (a : Action) (evs : List ContactEvent)
    (ph : PhysReading)
    (h : outsideCond ph = true ∨ brokenLegCond ph (runContacts s.contacts evs) = true) :
    stepDone s a evs ph = true ∧
    (stepState s a evs ph).landedTicks = s.landedTicks ∧
    (stepState s a evs ph).prevShaping = s.prevShaping := by
  have hgo : gameOverNext ph (runContacts s.contacts evs) = true := by
    rcases h with h | h <;> simp [gameOverNext, h]
  refine ⟨?_, ?_, ?_⟩ <;>
    simp [stepDone, stepState, step, landedTicksNext, hgo]

/-- Claim C6: within one episode the catastrophic flag is monotone — no
contact event ever clears `game_over`, and a `step` executed while the flag is
set keeps it set and returns `done = true`. -/
theorem game_over_monotone :
    (∀ (l0 l1 : Bool) (e : ContactEvent),
      (applyContactEvent ⟨true, l0, l1⟩ e).gameOver = true) ∧
    (∀ (s : EnvState) (a : Action) (evs : List ContactEvent) (ph : PhysReading),
      s.contacts.gameOver = true →
      (stepState s a evs ph).contacts.gameOver = true ∧ stepDone s a evs ph = true) := by
  constructor
  · decide
  · intro s a evs ph h
    have hc : (runContacts s.contacts evs).gameOver = true :=
      runContacts_gameOver_mono evs s.contacts h
    have hgo : gameOverNext ph (runContacts s.contacts evs) = true := by
      simp [gameOverNext, hc]
    constructor <;> simp [stepState, stepDone, step, hgo]

/-! ### Concrete physics readings used by witnesses and counterexamples -/

/-- A reading matching the spawn configuration: lander at the world-x middle,
`y = 0.95 * H = 1463/4`, descending at `start_speed` (so `speed = 1`), legs
not touching anything. -/
def spawnReading : PhysReading := ⟨W / 2, 1463/4, 0, -80, 0, 0, 1, 1/2, 0, 0⟩

/-- A reading for a lander resting on the platform: inside the bounds,
`speed = 1/20 < 0.1`, joint angles at the rest position 0. -/
def landedReading : PhysReading := ⟨W / 2, 21, 0, 0, 0, 0, 1/20, 1/10, 0, 0⟩

/-- A reading above the world ceiling (`pos.y = 400 > H = 385`), otherwise
identical to `landedReading` — so `outside` holds while `landed` also holds. -/
def outsideReading : PhysReading := ⟨W / 2, 400, 0, 0, 0, 0, 1/20, 1/10, 0, 0⟩

lemma outsideCond_spawn : outsideCond spawnReading = false := by
  norm_num [outsideCond, spawnReading, W, H, start_height, scale_s]

lemma outsideCond_landed : outsideCond landedReading = false := by
  norm_num [outsideCond, landedReading, W, H, start_height, scale_s]

lemma outsideCond_high : outsideCond outsideReading = true := by
  norm_num [outsideCond, outsideReading, W, H, start_height, scale_s]

lemma brokenLeg_landed (c : ContactFlags) : brokenLegCond landedReading c = false := by
  norm_num [brokenLegCond, landedReading]

lemma brokenLeg_spawn (c : ContactFlags) : brokenLegCond spawnReading c = false := by
  norm_num [brokenLegCond, spawnReading]

lemma landedCond_landed : landedCond landedReading ⟨false, true, true⟩ = true := by
  norm_num [landedCond, landedReading]

lemma gameOverNext_landed : gameOverNext landedReading ⟨false, true, true⟩ = false := by
  simp [gameOverNext, outsideCond_landed, brokenLeg_landed]

lemma shaping_landed : shapingValue landedReading ⟨false, true, true⟩ = 1/8 := by
  norm_num [shapingValue, landedReading]

lemma shaping_spawn : shapingValue spawnReading ⟨false, false, false⟩ = -(3/4) := by
  norm_num [shapingValue, spawnReading]

lemma terminal_landed : terminalAdjust landedReading = -(3/10) := by
  rw [terminalAdjust, max_eq_right] <;> norm_num [landedReading]

lemma noopForceDir (g t : ℚ) : (applyAction g t (Action.continuous 0 0 0)).2.2 = 0 := by
  norm_num [applyAction, continuousControl]

lemma fuelCost_zero : fuelCost 0 = 0 := by norm_num [fuelCost]

/-- Claim C1 amended: on the 60th consecutive landed tick (counter at 59, the
tick is landed and non-catastrophic) `step` returns `done = true`, but the
reward is not the bare `1.0`: line 495's terminal adjustment applies to every
`done` tick, success included, so the returned reward is
`clip (1 + max (-1) (-2 * (speed + distance + |angle| + |vel_a|))) [-1, 1]`.
Moreover no earlier step of the episode can return `done = true` with reward
`1.0`: any done tick whose post-update landed counter is not 60 is a
catastrophe tick, whose reward is at most 0. -/
theorem landing_success_amended :
    (∀ (s : EnvState) (a : Action) (evs : List ContactEvent) (ph : PhysReading),
      (runContacts s.contacts evs).gameOver = false →
      outsideCond ph = false →
      brokenLegCond ph (runContacts s.contacts evs) = false →
      landedCond ph (runContacts s.contacts evs) = true →
      s.landedTicks = 59 →
      stepDone s a evs ph = true ∧
      stepReward s a evs ph =
        clip (1 + max (-1) (0 - 2 * (ph.speed + ph.distance + |ph.wrappedAngle| + |ph.velA|)))
          (-1) 1) ∧
    (∀ (s : EnvState) (a : Action) (evs : List ContactEvent) (ph : PhysReading),
      0 ≤ ph.speed → 0 ≤ ph.distance →
      landedTicksNext s.landedTicks ph (runContacts s.contacts evs) ≠ FPS →
      stepDone s a evs ph = true →
      stepReward s a evs ph ≤ 0) := by
  constructor
  · intro s a evs ph hg hout hbr hld h59
    have hgo : gameOverNext ph (runContacts s.contacts evs) = false := by
      simp [gameOverNext, hg, hout, hbr]
    have hlt : landedTicksNext s.landedTicks ph (runContacts s.contacts evs) = FPS := by
      simp [landedTicksNext, hgo, hld, h59, FPS]
    constructor
    · simp [stepDone, step, hgo, hlt]
    · simp [stepReward, step, hgo, hlt, terminalAdjust]
  · intro s a evs ph hs hd h60 hdone
    have hdone' : gameOverNext ph (runContacts s.contacts evs) = true ∨
        landedTicksNext s.landedTicks ph (runContacts s.contacts evs) = FPS := by
      simpa [stepDone, step] using hdone
    rcases hdone' with hgo | hlt
    · have hb : -fuelCost (applyAction s.gimbal s.throttle a).2.2 + terminalAdjust ph ≤ 0 := by
        have h1 := fuelCost_nonneg (applyAction s.gimbal s.throttle a).2.2
        have h2 := terminalAdjust_nonpos ph hs hd
        linarith
      calc stepReward s a evs ph
          = clip (-fuelCost (applyAction s.gimbal s.throttle a).2.2 + terminalAdjust ph)
              (-1) 1 := by simp [stepReward, step, hgo]
        _ ≤ 0 := clip_nonpos hb
    · exact absurd hlt h60

/-- A state on the platform just before the 60th consecutive landed tick. -/
def preSuccessState : EnvState := ⟨⟨false, true, true⟩, 59, some (1/8), 60, 0, 0⟩

/-- Witness for the amended C1: from `preSuccessState`, a no-op tick with the
resting reading returns `done = true` and reward `7/10` — that is
`clip (1 + max (-1) (-2 * (1/20 + 1/10))) [-1, 1]`, not `1.0`. -/
theorem landing_success_amended_witness :
    stepDone preSuccessState (Action.continuous 0 0 0) [] landedReading = true ∧
    stepReward preSuccessState (Action.continuous 0 0 0) [] landedReading = 7/10 := by
  have h := landing_success_amended.1 preSuccessState (Action.continuous 0 0 0) [] landedReading
    rfl outsideCond_landed (brokenLeg_landed _) landedCond_landed rfl
  refine ⟨h.1, ?_⟩
  rw [h.2]
  have hm : max (-1 : ℚ)
      (0 - 2 * (landedReading.speed + landedReading.distance +
        |landedReading.wrappedAngle| + |landedReading.velA|)) = -(3/10) := by
    rw [max_eq_right] <;> norm_num [landedReading]
  rw [hm]
  norm_num [clip]

lemma landed_tick_step (s : EnvState)
    (hc : s.contacts = ⟨false, true, true⟩)
    (hp : s.prevShaping = some (1/8))
    (hlt : s.landedTicks + 1 ≠ 60) :
    stepReward s (Action.continuous 0 0 0) [] landedReading = 0 ∧
    stepDone s (Action.continuous 0 0 0) [] landedReading = false ∧
    (stepState s (Action.continuous 0 0 0) [] landedReading).contacts = ⟨false, true, true⟩ ∧
    (stepState s (Action.continuous 0 0 0) [] landedReading).prevShaping = some (1/8) ∧
    (stepState s (Action.continuous 0 0 0) [] landedReading).landedTicks = s.landedTicks + 1 := by
  have hrc : runContacts s.contacts [] = (⟨false, true, true⟩ : ContactFlags) := hc
  have hgo : gameOverNext landedReading (⟨false, true, true⟩ : ContactFlags) = false :=
    gameOverNext_landed
  have hltn : landedTicksNext s.landedTicks landedReading (⟨false, true, true⟩ : ContactFlags)
      = s.landedTicks + 1 := by
    simp [landedTicksNext, gameOverNext_landed, landedCond_landed]
  have hne : landedTicksNext s.landedTicks landedReading (⟨false, true, true⟩ : ContactFlags)
      ≠ FPS := by
    rw [hltn]; simpa [FPS] using hlt
  refine ⟨?_, ?_, ?_, ?_, ?_⟩
  · norm_num [stepReward, step, hrc, hgo, hne, hp, shaping_landed, shapingDelta,
      noopForceDir, fuelCost_zero, groundContactCond, clip]
  · simp [stepDone, step, hrc, hgo, hne]
  · simp [stepState, step, hrc, hgo]
  · simp [stepState, step, hrc, hgo, shaping_landed]
  · simp [stepState, step, hrc, hltn]

lemma success_tick_step (s : EnvState)
    (hc : s.contacts = ⟨false, true, true⟩)
    (h59 : s.landedTicks = 59) :
    stepReward s (Action.continuous 0 0 0) [] landedReading = 7/10 ∧
    stepDone s (Action.continuous 0 0 0) [] landedReading = true := by
  have h := landing_success_amended.1 s (Action.continuous 0 0 0) [] landedReading
    (by rw [show runContacts s.contacts [] = s.contacts from rfl, hc])
    outsideCond_landed
    (by rw [show runContacts s.contacts [] = s.contacts from rfl, hc]; exact brokenLeg_landed _)
    (by rw [show runContacts s.contacts [] = s.contacts from rfl, hc]; exact landedCond_landed)
    h59
  refine ⟨?_, h.1⟩
  rw [h.2]
  have hm : max (-1 : ℚ)
      (0 - 2 * (landedReading.speed + landedReading.distance +
        |landedReading.wrappedAngle| + |landedReading.velA|)) = -(3/10) := by
    rw [max_eq_right] <;> norm_num [landedReading]
  rw [hm]
  norm_num [clip]

lemma run_landed : ∀ (k : ℕ) (s : EnvState),
    s.contacts = ⟨false, true, true⟩ →
    s.prevShaping = some (1/8) →
    s.landedTicks + k = 60 →
    1 ≤ k →
    runEpisode s (List.replicate k (Action.continuous 0 0 0, [], landedReading)) =
      List.replicate (k - 1) ((0 : ℚ), false) ++ [(7/10, true)] := by
  intro k
  induction k with
  | zero => intro s _ _ _ h1; omega
  | succ j ih =>
      intro s hc hp hsum _
      rcases Nat.eq_zero_or_pos j with hj | hj
      · subst hj
        have h59 : s.landedTicks = 59 := by omega
        have h := success_tick_step s hc h59
        simp [runEpisode, h.1, h.2]
      · have hne : s.landedTicks + 1 ≠ 60 := by omega
        have h := landed_tick_step s hc hp hne
        have hnext := ih (stepState s (Action.continuous 0 0 0) [] landedReading)
          h.2.2.1 h.2.2.2.1 (by rw [h.2.2.2.2]; omega) hj
        rw [List.replicate_succ, runEpisode, h.1, h.2.1, hnext]
        have hje : j - 1 + 1 = j := by omega
        rw [show Nat.succ j - 1 = j from rfl, ← hje, List.replicate_succ]
        simp

lemma gameOverNext_spawn : gameOverNext spawnReading ⟨false, false, false⟩ = false := by
  simp [gameOverNext, outsideCond_spawn, brokenLeg_spawn]

lemma resetState_contacts :
    (reset true [] spawnReading).2.contacts = ⟨false, false, false⟩ := by
  simp [reset, resetAction, stepState, step, runContacts, initialEnvState, gameOverNext_spawn]

lemma resetState_prevShaping :
    (reset true [] spawnReading).2.prevShaping = some (-(3/4)) := by
  simp [reset, resetAction, stepState, step, runContacts, initialEnvState, gameOverNext_spawn,
    shaping_spawn]

lemma resetState_landedTicks :
    (reset true [] spawnReading).2.landedTicks = 0 := by
  simp [reset, resetAction, stepState, step, runContacts, initialEnvState, landedTicksNext,
    gameOverNext_spawn, landedCond]

/-- The contact events of the touchdown tick: both legs begin contact with the
ship platform. -/
def touchdownEvents : List ContactEvent :=
  [ContactEvent.beginEvent BodyId.ship BodyId.leg0,
   ContactEvent.beginEvent BodyId.ship BodyId.leg1]

lemma first_tick_facts :
    stepReward (reset true [] spawnReading).2 (Action.continuous 0 0 0)
        touchdownEvents landedReading = 7/8 ∧
    stepDone (reset true [] spawnReading).2 (Action.continuous 0 0 0)
        touchdownEvents landedReading = false ∧
    (stepState (reset true [] spawnReading).2 (Action.continuous 0 0 0)
        touchdownEvents landedReading).contacts = ⟨false, true, true⟩ ∧
    (stepState (reset true [] spawnReading).2 (Action.continuous 0 0 0)
        touchdownEvents landedReading).prevShaping = some (1/8) ∧
    (stepState (reset true [] spawnReading).2 (Action.continuous 0 0 0)
        touchdownEvents landedReading).landedTicks = 1 := by
  have hrc : runContacts (reset true [] spawnReading).2.contacts touchdownEvents
      = (⟨false, true, true⟩ : ContactFlags) := by
    rw [resetState_contacts]; rfl
  have hgo : gameOverNext landedReading (⟨false, true, true⟩ : ContactFlags) = false :=
    gameOverNext_landed
  have hltn : landedTicksNext (reset true [] spawnReading).2.landedTicks landedReading
      (⟨false, true, true⟩ : ContactFlags) = 1 := by
    rw [resetState_landedTicks]
    simp [landedTicksNext, gameOverNext_landed, landedCond_landed]
  have hne : landedTicksNext (reset true [] spawnReading).2.landedTicks landedReading
      (⟨false, true, true⟩ : ContactFlags) ≠ FPS := by
    rw [hltn]; simp [FPS]
  refine ⟨?_, ?_, ?_, ?_, ?_⟩
  · norm_num [stepReward, step, hrc, hgo, hne, resetState_prevShaping, shaping_landed,
      shapingDelta, noopForceDir, fuelCost_zero, groundContactCond, clip]
  · simp [stepDone, step, hrc, hgo, hne]
  · simp [stepState, step, hrc, hgo]
  · simp [stepState, step, hrc, hgo, shaping_landed]
  · simp [stepState, step, hrc, hltn]

/-- Counterexample to claim C1 as stated: a concrete episode.  After `reset`
(whose internal tick leaves the counter at 0), both legs touch the platform
and stay landed (`speed = 1/20 < 0.1`) for exactly 60 consecutive ticks.  The
60th consecutive landed tick does return `done = true`, but its reward is
`7/10`, not `1.0`: line 492 sets `reward = 1.0`, then line 495-496 adds the
terminal adjustment `max(-1, -2*(speed + distance)) = -3/10` because `done`
holds.  (The first landed tick's reward is `7/8` — the shaping delta — and the
58 intermediate landed ticks have reward 0.) -/
theorem landing_reward_counterexample :
    runEpisode (reset true [] spawnReading).2
        ((Action.continuous 0 0 0, touchdownEvents, landedReading)
          :: List.replicate 59 (Action.continuous 0 0 0, [], landedReading)) =
      (7/8, false) :: (List.replicate 58 ((0 : ℚ), false) ++ [(7/10, true)]) ∧
    (7/10 : ℚ) ≠ 1 := by
  constructor
  · have h := first_tick_facts
    rw [runEpisode, h.1, h.2.1]
    rw [run_landed 59 _ h.2.2.1 h.2.2.2.1 (by rw [h.2.2.2.2]) (by norm_num)]
  · norm_num

/-- Claim C10: `reset` consumes one oracle physics tick — it internally
invokes `step` once with the no-op action of its mode (`[0,0,0]` continuous,
`6` discrete) and returns exactly that tick's observation; afterwards the step
counter is 1 and, provided that the internal tick is not catastrophic (which
holds for any reachable spawn reading: the lander spawns strictly inside the
bounds with no leg contact), the stored previous-shaping value is non-null. -/
theorem reset_invokes_step (cont : Bool) (evs : List ContactEvent) (ph : PhysReading) :
    reset cont evs ph =
      (stepObs initialEnvState (resetAction cont) evs ph,
       stepState initialEnvState (resetAction cont) evs ph) ∧
    (reset cont evs ph).2.stepnumber = 1 ∧
    (gameOverNext ph (runContacts initialEnvState.contacts evs) = false →
      (reset cont evs ph).2.prevShaping ≠ none) := by
  refine ⟨rfl, rfl, fun h => ?_⟩
  simp [reset, stepState, step, h]

/-- Witness for C10 at the concrete spawn reading with no contact events. -/
theorem reset_invokes_step_witness :
    gameOverNext spawnReading (runContacts initialEnvState.contacts []) = false ∧
    (reset true [] spawnReading).2.stepnumber = 1 ∧
    (reset true [] spawnReading).2.prevShaping ≠ none := by
  have hg : gameOverNext spawnReading (runContacts initialEnvState.contacts []) = false := by
    simpa [runContacts, initialEnvState] using gameOverNext_spawn
  exact ⟨hg, (reset_invokes_step true [] spawnReading).2.1,
    (reset_invokes_step true [] spawnReading).2.2 hg⟩

/-- A mid-episode state with both legs down, used by the C4 witness. -/
def cwState : EnvState := ⟨⟨false, true, true⟩, 5, some 0, 3, 0, 0⟩

/-- Witness for C4: with the lander above the ceiling (`outside` true) while
`landed` also holds, the tick is terminal and the counter and stored shaping
are untouched. -/
theorem catastrophe_precedence_witness :
    outsideCond outsideReading = true ∧
    landedCond outsideReading (runContacts cwState.contacts []) = true ∧
    stepDone cwState (Action.continuous 0 0 0) [] outsideReading = true ∧
    (stepState cwState (Action.continuous 0 0 0) [] outsideReading).landedTicks = 5 ∧
    (stepState cwState (Action.continuous 0 0 0) [] outsideReading).prevShaping = some 0 := by
  have hl : landedCond outsideReading (runContacts cwState.contacts []) = true := by
    norm_num [landedCond, outsideReading, runContacts, cwState]
  have h := catastrophe_precedence cwState (Action.continuous 0 0 0) [] outsideReading
    (Or.inl outsideCond_high)
  exact ⟨outsideCond_high, hl, h.1, h.2.1, h.2.2⟩

/-- A state whose catastrophic flag is already set, used by the C6 witness. -/
def gwState : EnvState := ⟨⟨true, false, false⟩, 0, none, 0, 0, 0⟩

/-- Witness for C6: a step taken while the catastrophic flag is set keeps it
set and returns `done = true`. -/
theorem game_over_monotone_witness :
    gwState.contacts.gameOver = true ∧
    (stepState gwState (Action.discrete 6) [] landedReading).contacts.gameOver = true ∧
    stepDone gwState (Action.discrete 6) [] landedReading = true := by
  have h := game_over_monotone.2 gwState (Action.discrete 6) [] landedReading rfl
  exact ⟨rfl, h.1, h.2⟩

end VerticalLanding
